import Mathlib

/-!
Verification of the customer-churn prediction service.

This development shallowly embeds the three source files of the repository:

* `src/main.py`   — the training script: `build_pipeline`, the label mapping of
  the `Churn` column, and the composition of the final model.
* `src/app.py`    — the form-rendering Flask service: the `predict` handler.
* `src/app_corrected.py` — the second service variant: its `predict` handler and
  the JSON `api_predict` handler.

Request payloads (`request.form.to_dict()` / `request.get_json()`) are embedded
as association lists `List (String × String)` with first-match `List.lookup`
semantics, which agrees with a Python `dict` whose keys are unique.  A row of a
pandas `DataFrame` built from such a dict is a list of (column name, optional
cell) pairs.  Python exceptions are embedded as an explicit `Except` result
carrying the exception class, short message (`str(e)`) and traceback text.
Probabilities are embedded as rationals.
-/

namespace Churn

/-- The `EXPECTED_COLUMNS` list shared verbatim by `src/app.py` (lines 13-19)
and `src/app_corrected.py` (lines 12-18): the 19 attribute names the handlers
validate before invoking the model. -/
def EXPECTED_COLUMNS : List String :=
  ["gender", "SeniorCitizen", "Partner", "Dependents", "tenure",
   "PhoneService", "MultipleLines", "InternetService", "OnlineSecurity",
   "OnlineBackup", "DeviceProtection", "TechSupport", "StreamingTV",
   "StreamingMovies", "Contract", "PaperlessBilling", "PaymentMethod",
   "MonthlyCharges", "TotalCharges"]

/-- `data.pop("customerID", None)` leaves the remaining key/value pairs:
the record with every `customerID` entry removed. -/
def stripId (form : List (String × String)) : List (String × String) :=
  form.filter (fun kv => kv.1 != "customerID")

/-- `[col for col in EXPECTED_COLUMNS if col not in input_df.columns]`
(`src/app.py` line 47, `src/app_corrected.py` lines 41 and 96). -/
def missingColumns (d : List (String × String)) : List String :=
  EXPECTED_COLUMNS.filter (fun c => (d.lookup c).isNone)

/-- `input_df[EXPECTED_COLUMNS]` (`src/app.py` line 52): select exactly the
expected columns, in the fixed `EXPECTED_COLUMNS` order, by name.  The cell for
a column is that column of the record; the handlers only reach this step after
validating that no expected column is missing. -/
def selectColumns (d : List (String × String)) : List (String × Option String) :=
  EXPECTED_COLUMNS.map (fun c => (c, d.lookup c))

/-- A Python exception as observed by the handlers: its class (the handlers
distinguish only `ValueError` from everything else), its short message
`str(e)`, and the full `traceback.format_exc()` text. -/
inductive PyExc where
  | valueError (message : String) (tb : String)
  | otherExc (message : String) (tb : String)
  deriving DecidableEq

/-- `str(e)` of the exception. -/
def PyExc.msg : PyExc → String
  | .valueError m _ => m
  | .otherExc m _ => m

/-- `traceback.format_exc()` at the point the exception is caught. -/
def PyExc.tb : PyExc → String
  | .valueError _ t => t
  | .otherExc _ t => t

/-- Modelled from the spec: the fitted pipeline artifact `model.pkl` is not
source of this repository (it is produced by `src/main.py` through the external
sklearn library and loaded with `joblib.load`); the spec treats it as an opaque
artifact with two logical operations, predict-label and predict-probability.
`run df` is the pair of consecutive calls `model.predict(input_df)[0]` and
`model.predict_proba(input_df)[0][1]` on one single-row frame; a call into the
artifact may raise a Python exception, hence the `Except`.  Per the spec, on a
non-raising call the churn-class probability lies in `[0,1]` and the predicted
class is `1` exactly when that probability reaches the classifier's `0.5`
threshold. -/
structure Model where
  run : List (String × Option String) → Except PyExc (ℕ × ℚ)
  run_threshold : ∀ df pred p, run df = Except.ok (pred, p) → (pred = 1 ↔ 1/2 ≤ p)
  run_unit : ∀ df pred p, run df = Except.ok (pred, p) → 0 ≤ p ∧ p ≤ 1

/-- An artifact for which every invocation raises the given exception. -/
def errModel (e : PyExc) : Model where
  run := fun _ => Except.error e
  run_threshold := fun _ _ _ h => Except.noConfusion h
  run_unit := fun _ _ _ h => Except.noConfusion h

/-- A concrete artifact that never raises: every invocation reports churn-class
probability exactly `1/2`, hence predicted class `1`. -/
def halfModel : Model where
  run := fun _ => Except.ok (1, 1/2)
  run_threshold := by
    intro df pred p h
    simp only [Except.ok.injEq, Prod.mk.injEq] at h
    obtain ⟨rfl, rfl⟩ := h
    norm_num
  run_unit := by
    intro df pred p h
    simp only [Except.ok.injEq, Prod.mk.injEq] at h
    obtain ⟨rfl, rfl⟩ := h
    norm_num

/-- A concrete artifact that never raises: every invocation reports churn-class
probability `1/10`, hence predicted class `0`. -/
def lowModel : Model where
  run := fun _ => Except.ok (0, 1/10)
  run_threshold := by
    intro df pred p h
    simp only [Except.ok.injEq, Prod.mk.injEq] at h
    obtain ⟨rfl, rfl⟩ := h
    norm_num
  run_unit := by
    intro df pred p h
    simp only [Except.ok.injEq, Prod.mk.injEq] at h
    obtain ⟨rfl, rfl⟩ := h
    norm_num

/-- A concrete artifact whose invocation raises a `ValueError` that is not a
missing-column error (the kind sklearn raises when a numeric column holds a
non-numeric string). -/
def convErrModel : Model :=
  errModel (PyExc.valueError "could not convert string to float" "Traceback (most recent call last): ...")

/-- A concrete artifact whose invocation raises a non-`ValueError` exception. -/
def crashModel : Model :=
  errModel (PyExc.otherExc "unexpected internal error" "Traceback (most recent call last): ...")

/-- The outcome of the shared body of a predict handler: either the model was
invoked successfully (with the raw label, churn-class probability, popped
customer id and remaining form data), or the handler ended in the
`except ValueError` path (structural/input error), or in the generic
`except Exception` path (unclassified failure). -/
inductive HandlerOutcome where
  | success (label : String) (p : ℚ) (customerId : Option String)
      (data : List (String × String))
  | structural (message : String)
  | unclassified (message : String) (tb : String)
  deriving DecidableEq

/-- The two caller-visible error kinds of the spec, plus the no-error case. -/
inductive ErrorKind where
  | structuralKind
  | unclassifiedKind
  | successKind
  deriving DecidableEq

/-- Which except-branch (if any) handled the request. -/
def HandlerOutcome.kind : HandlerOutcome → ErrorKind
  | .success _ _ _ _ => ErrorKind.successKind
  | .structural _ => ErrorKind.structuralKind
  | .unclassified _ _ => ErrorKind.unclassifiedKind

/-- Round a rational to the nearest integer, ties to the even neighbour: the
rounding applied by CPython when formatting a nonnegative value with `:.2f`. -/
def roundHalfEven (q : ℚ) : ℤ :=
  let f : ℤ := q.num.ediv q.den
  let r : ℤ := q.num.emod q.den
  if 2 * r < (q.den : ℤ) then f
  else if (q.den : ℤ) < 2 * r then f + 1
  else if f % 2 = 0 then f else f + 1

/-- Python `f"{v:.2f}"` for the nonnegative values the handlers format: the
decimal rendering of `v` rounded to two decimal places, with exactly two
digits after the point. -/
def format2f (v : ℚ) : String :=
  let n : ℕ := (roundHalfEven (v * 100)).toNat
  toString (n / 100) ++ "." ++ String.mk [Nat.digitChar (n % 100 / 10), Nat.digitChar (n % 10)]

/-- `f"{probability*100:.2f}%"`: the confidence percentage string both service
variants attach to a successful prediction. -/
def pctString (p : ℚ) : String :=
  format2f (p * 100) ++ "%"

/-- The risk bucket of `src/app.py` lines 69-81, as a pair
(risk_level, risk_message) of the percentage `prob_percentage`. -/
def riskOf (probPct : ℚ) : String × String :=
  if probPct < 30 then ("low", "VERY LOW RISK")
  else if probPct < 50 then ("medium", "MEDIUM RISK")
  else if probPct < 70 then ("high", "HIGH RISK")
  else ("very-high", "VERY HIGH RISK")

/-- The variables a form handler passes to `render_template("predict.html", ...)`:
a keyword absent from the call is `none`.  `src/app.py` passes the risk fields
and the raw percentage; `src/app_corrected.py`'s form handler does not. -/
structure RenderedPage where
  churn : Option String
  probability : Option String
  probPct : Option ℚ
  riskLevel : Option String
  riskMessage : Option String
  customerId : Option String
  error : Option String
  data : List (String × String)
  success : Bool
  deriving DecidableEq

end Churn

namespace App

open Churn

/-- The body of `predict` in `src/app.py` (and, verbatim, of the form `predict`
in `src/app_corrected.py`) up to rendering: pop `customerID`, build the
single-row frame, raise/catch `ValueError` on missing expected columns, select
the expected columns, invoke the model.  A `ValueError` raised by the model
invocation itself is caught by the same `except ValueError` clause. -/
def formDispatch (m : Model) (form : List (String × String)) : HandlerOutcome :=
  if missingColumns (stripId form) = [] then
    match m.run (selectColumns (stripId form)) with
    | Except.ok (pred, p) =>
        HandlerOutcome.success (if pred = 1 then "Yes" else "No") p
          (form.lookup "customerID") (stripId form)
    | Except.error (PyExc.valueError msg _) => HandlerOutcome.structural msg
    | Except.error (PyExc.otherExc msg tb) => HandlerOutcome.unclassified msg tb
  else
    HandlerOutcome.structural
      ("Missing required columns: " ++ String.intercalate ", " (missingColumns (stripId form)))

/-- Rendering of `src/app.py`: the successful page carries the label, the
formatted percentage, the raw percentage and the risk fields; the
`except ValueError` page carries `"Input Error: "` plus the message; the
generic `except Exception` page carries `"Error: "` plus the short message and
logs the traceback server-side (the second component is the server log). -/
def render : HandlerOutcome → RenderedPage × List String
  | HandlerOutcome.success label p cid data =>
      (⟨some label, some (pctString p), some (p * 100),
        some (riskOf (p * 100)).1, some (riskOf (p * 100)).2,
        cid, none, data, true⟩, [])
  | HandlerOutcome.structural msg =>
      (⟨none, none, none, none, none, none, some ("Input Error: " ++ msg), [], false⟩, [])
  | HandlerOutcome.unclassified msg tb =>
      (⟨none, none, none, none, none, none, some ("Error: " ++ msg), [], false⟩,
       ["Prediction failed: " ++ tb])

/-- The `predict` handler of `src/app.py`: response page plus server log. -/
def predict (m : Model) (form : List (String × String)) : RenderedPage × List String :=
  render (formDispatch m form)

end App

namespace AppCorrected

open Churn

/-- The body of the form `predict` of `src/app_corrected.py` (lines 32-57):
line for line the same computation as `App.formDispatch`. -/
def formDispatch (m : Model) (form : List (String × String)) : HandlerOutcome :=
  if missingColumns (stripId form) = [] then
    match m.run (selectColumns (stripId form)) with
    | Except.ok (pred, p) =>
        HandlerOutcome.success (if pred = 1 then "Yes" else "No") p
          (form.lookup "customerID") (stripId form)
    | Except.error (PyExc.valueError msg _) => HandlerOutcome.structural msg
    | Except.error (PyExc.otherExc msg tb) => HandlerOutcome.unclassified msg tb
  else
    HandlerOutcome.structural
      ("Missing required columns: " ++ String.intercalate ", " (missingColumns (stripId form)))

/-- Rendering of the form `predict` of `src/app_corrected.py`: no risk fields,
and the generic branch prefixes `"Prediction Error: "` instead of
`"Error: "`. -/
def render : HandlerOutcome → RenderedPage × List String
  | HandlerOutcome.success label p cid data =>
      (⟨some label, some (pctString p), none, none, none, cid, none, data, true⟩, [])
  | HandlerOutcome.structural msg =>
      (⟨none, none, none, none, none, none, some ("Input Error: " ++ msg), [], false⟩, [])
  | HandlerOutcome.unclassified msg tb =>
      (⟨none, none, none, none, none, none, some ("Prediction Error: " ++ msg), [], false⟩,
       ["Prediction failed: " ++ tb])

/-- The form `predict` handler of `src/app_corrected.py`. -/
def predict (m : Model) (form : List (String × String)) : RenderedPage × List String :=
  render (formDispatch m form)

/-- The JSON body returned by `api_predict`: either the success object with
exactly the fields `success=true`, `customer_id`, `churn_prediction`,
`churn_probability`, `confidence`, or the error object with `error` and
`success=false`. -/
inductive ApiResponse where
  | ok (customerId : Option String) (churnPrediction : String)
      (churnProbability : ℚ) (confidence : String)
  | err (error : String)
  deriving DecidableEq

/-- The `success` field of the JSON body. -/
def ApiResponse.success : ApiResponse → Bool
  | .ok _ _ _ _ => true
  | .err _ => false

/-- The `churn_prediction` field, when present. -/
def ApiResponse.labelOf : ApiResponse → Option String
  | .ok _ l _ _ => some l
  | .err _ => none

/-- The `churn_probability` field, when present. -/
def ApiResponse.probOf : ApiResponse → Option ℚ
  | .ok _ _ p _ => some p
  | .err _ => none

/-- The `confidence` field, when present. -/
def ApiResponse.confidenceOf : ApiResponse → Option String
  | .ok _ _ _ c => some c
  | .err _ => none

/-- The `error` field, when present. -/
def ApiResponse.errorOf : ApiResponse → Option String
  | .ok _ _ _ _ => none
  | .err e => some e

/-- The body of `api_predict` (`src/app_corrected.py` lines 89-107): pop
`customerID`, build the frame, return the 400 error object directly when
columns are missing (no exception is raised for that case), otherwise invoke
the model; every exception, `ValueError` included, falls into the single
`except Exception` clause. -/
def apiDispatch (m : Model) (json : List (String × String)) : HandlerOutcome :=
  if missingColumns (stripId json) = [] then
    match m.run (selectColumns (stripId json)) with
    | Except.ok (pred, p) =>
        HandlerOutcome.success (if pred = 1 then "Yes" else "No") p
          (json.lookup "customerID") (stripId json)
    | Except.error e => HandlerOutcome.unclassified e.msg e.tb
  else
    HandlerOutcome.structural
      ("Missing columns: " ++ String.intercalate ", " (missingColumns (stripId json)))

/-- JSON rendering of `api_predict`: the pair holds the JSON body with its HTTP
status, and the server log.  Missing columns give status 400 with no log; an
exception gives status 500 with `str(e)` as the caller-visible error and the
traceback logged server-side only. -/
def apiRender : HandlerOutcome → (ApiResponse × ℕ) × List String
  | HandlerOutcome.success label p cid _ =>
      ((ApiResponse.ok cid label p (pctString p), 200), [])
  | HandlerOutcome.structural msg => ((ApiResponse.err msg, 400), [])
  | HandlerOutcome.unclassified msg tb =>
      ((ApiResponse.err msg, 500), ["API prediction failed: " ++ tb])

/-- The `api_predict` handler of `src/app_corrected.py`. -/
def api_predict (m : Model) (json : List (String × String)) : (ApiResponse × ℕ) × List String :=
  apiRender (apiDispatch m json)

end AppCorrected

namespace Main

open Churn

/-- A primitive sklearn estimator as instantiated in `src/main.py`, recorded
with the configuration the source passes to its constructor. -/
inductive BaseEstimator where
  | simpleImputer (strategy : String)
  | standardScaler
  | oneHotEncoder (handleUnknown : String) (drop : String)
  | logisticRegression (maxIter : ℕ) (classWeight : String)
  deriving DecidableEq

/-- An sklearn `Pipeline` of named primitive steps. -/
structure SkPipeline where
  steps : List (String × BaseEstimator)
  deriving DecidableEq

/-- An sklearn `ColumnTransformer`: named sub-pipelines, each applied to a list
of column names. -/
structure SkColumnTransformer where
  transformers : List (String × SkPipeline × List String)
  deriving DecidableEq

/-- A step of the top-level model `Pipeline` of `src/main.py` lines 77-83:
either the preprocessing `ColumnTransformer` or a classifier estimator. -/
inductive ModelStage where
  | preprocessorStage (t : SkColumnTransformer)
  | classifierStage (c : BaseEstimator)
  deriving DecidableEq

/-- The top-level model `Pipeline`. -/
structure SkModelPipeline where
  steps : List (String × ModelStage)
  deriving DecidableEq

/-- `build_pipeline` of `src/main.py` lines 20-36: the numeric sub-pipeline
(median imputer, standard scaler), the categorical sub-pipeline (most-frequent
imputer, one-hot encoder ignoring unknown values and dropping the first
category), assembled into the `ColumnTransformer` the function returns. -/
def build_pipeline (num_attribs cat_attribs : List String) : SkColumnTransformer :=
  ⟨[("num",
     ⟨[("imputer", BaseEstimator.simpleImputer "median"),
       ("scaler", BaseEstimator.standardScaler)]⟩,
     num_attribs),
    ("cat",
     ⟨[("imputer", BaseEstimator.simpleImputer "most_frequent"),
       ("onehot", BaseEstimator.oneHotEncoder "ignore" "first")]⟩,
     cat_attribs)]⟩

/-- `final_model` of `src/main.py` lines 77-83: `Pipeline` of the preprocessor
returned by `build_pipeline` and the class-balanced logistic regression. -/
def final_model (num_attribs cat_attribs : List String) : SkModelPipeline :=
  ⟨[("preprocessing", ModelStage.preprocessorStage (build_pipeline num_attribs cat_attribs)),
    ("classifier", ModelStage.classifierStage (BaseEstimator.logisticRegression 1000 "balanced"))]⟩

/-- Whether a primitive estimator is a classifier. -/
def BaseEstimator.isClf : BaseEstimator → Bool
  | .logisticRegression _ _ => true
  | _ => false

/-- Whether a sub-pipeline contains a classifier step. -/
def SkPipeline.hasClf (p : SkPipeline) : Bool :=
  p.steps.any (fun s => s.2.isClf)

/-- Whether a `ColumnTransformer` contains a classifier anywhere. -/
def SkColumnTransformer.hasClf (t : SkColumnTransformer) : Bool :=
  t.transformers.any (fun tr => tr.2.1.hasClf)

/-- Whether the top-level model pipeline contains a classifier anywhere. -/
def SkModelPipeline.hasClf (mp : SkModelPipeline) : Bool :=
  mp.steps.any (fun s =>
    match s.2 with
    | ModelStage.preprocessorStage t => t.hasClf
    | ModelStage.classifierStage c => c.isClf)

/-- The numeric attribute names of the training split: the four columns
`src/main.py` lines 43-45 converts with `pd.to_numeric`, which are then the
only `int64`/`float64` columns selected on line 72. -/
def num_attribs : List String :=
  ["SeniorCitizen", "tenure", "MonthlyCharges", "TotalCharges"]

/-- The categorical (object-dtype) attribute names of the training split
selected on line 73: all feature columns except the numeric four. -/
def cat_attribs : List String :=
  ["gender", "Partner", "Dependents", "PhoneService", "MultipleLines",
   "InternetService", "OnlineSecurity", "OnlineBackup", "DeviceProtection",
   "TechSupport", "StreamingTV", "StreamingMovies", "Contract",
   "PaperlessBilling", "PaymentMethod"]

/-- The inference-time encoding of one raw value of one categorical attribute
by the fitted `OneHotEncoder(handle_unknown="ignore", drop="first")` configured
in `build_pipeline`: `cats` is the vocabulary learned for that attribute at fit
time; its first category is dropped, so the dummy columns are indexed by
`cats.drop 1`, and a value equal to none of them (the dropped first category,
or any value unseen at fit time) yields `0` in every dummy column. -/
def encodeValue (cats : List String) (v : String) : List ℚ :=
  (cats.drop 1).map (fun c => if v = c then 1 else 0)

/-- The fitted state of the categorical sub-pipeline of `build_pipeline` for
one attribute: the most-frequent training value used by the imputer, and the
encoder's learned vocabulary. -/
structure FittedCatColumn where
  fillValue : String
  categories : List String

/-- Apply the fitted categorical sub-pipeline to one cell: the most-frequent
imputer fills a missing cell and passes a present cell through unchanged, then
the encoder maps the value to its dummy columns. -/
def FittedCatColumn.transform (col : FittedCatColumn) (v : Option String) : List ℚ :=
  encodeValue col.categories (v.getD col.fillValue)

/-- `pandas.Series.map` applied with a dict argument, on one cell: a cell whose
value is a key of the dict is replaced by the mapped value, any other cell
(missing, modelled as `none`, or holding a value that is not a key) becomes
missing (`NaN`), and no error is raised. -/
def seriesMapDict (dict : List (String × ℤ)) (v : Option String) : Option ℤ :=
  v.bind (fun s => dict.lookup s)

/-- `churn_data["Churn"].map({"Yes": 1, "No": 0})` of `src/main.py` line 48,
on one cell of the `Churn` column. -/
def churnLabelMap (v : Option String) : Option ℤ :=
  seriesMapDict [("Yes", 1), ("No", 0)] v

/-- Line 48 applied to the whole `Churn` column. -/
def churnColumnMap (col : List (Option String)) : List (Option ℤ) :=
  col.map churnLabelMap

end Main

namespace Churn

/-- A concrete complete form submission: all 19 expected attributes plus the
optional `customerID`. -/
def fullForm : List (String × String) :=
  [("customerID", "CUST001"), ("gender", "Female"), ("SeniorCitizen", "0"),
   ("Partner", "Yes"), ("Dependents", "No"), ("tenure", "1"),
   ("PhoneService", "No"), ("MultipleLines", "No phone service"),
   ("InternetService", "DSL"), ("OnlineSecurity", "No"),
   ("OnlineBackup", "Yes"), ("DeviceProtection", "No"), ("TechSupport", "No"),
   ("StreamingTV", "No"), ("StreamingMovies", "No"),
   ("Contract", "Month-to-month"), ("PaperlessBilling", "Yes"),
   ("PaymentMethod", "Electronic check"), ("MonthlyCharges", "70.35"),
   ("TotalCharges", "70.35")]

/-- The same attribute-to-value mapping as `fullForm`, submitted in a different
order, with an extra attribute and without `customerID`. -/
def permForm : List (String × String) :=
  [("TotalCharges", "70.35"), ("MonthlyCharges", "70.35"),
   ("PaymentMethod", "Electronic check"), ("PaperlessBilling", "Yes"),
   ("Contract", "Month-to-month"), ("StreamingMovies", "No"),
   ("StreamingTV", "No"), ("TechSupport", "No"), ("DeviceProtection", "No"),
   ("OnlineBackup", "Yes"), ("OnlineSecurity", "No"),
   ("InternetService", "DSL"), ("MultipleLines", "No phone service"),
   ("PhoneService", "No"), ("tenure", "1"), ("Dependents", "No"),
   ("Partner", "Yes"), ("SeniorCitizen", "0"), ("gender", "Female"),
   ("extraAttribute", "ignored")]

/-- A submission missing two expected attributes. -/
def partialForm : List (String × String) :=
  [("customerID", "CUST002"), ("gender", "Male"), ("SeniorCitizen", "0"),
   ("Partner", "Yes"), ("Dependents", "No"), ("tenure", "12"),
   ("PhoneService", "Yes"), ("MultipleLines", "No"),
   ("InternetService", "DSL"), ("OnlineSecurity", "No"),
   ("OnlineBackup", "Yes"), ("DeviceProtection", "No"), ("TechSupport", "No"),
   ("StreamingTV", "No"), ("StreamingMovies", "No"),
   ("Contract", "Month-to-month"), ("PaperlessBilling", "Yes")]

end Churn

namespace Churn

/-- Unfolding `App.formDispatch` on a structurally valid request whose model
invocation succeeds. -/
theorem appDispatch_ok (m : Model) (form : List (String × String)) (pred : ℕ) (p : ℚ)
    (hm : missingColumns (stripId form) = [])
    (hr : m.run (selectColumns (stripId form)) = Except.ok (pred, p)) :
    App.formDispatch m form =
      HandlerOutcome.success (if pred = 1 then "Yes" else "No") p
        (form.lookup "customerID") (stripId form) := by
  unfold App.formDispatch
  rw [hm, hr]
  rfl

/-- Unfolding `App.formDispatch` when expected columns are missing. -/
theorem appDispatch_missing (m : Model) (form : List (String × String))
    (hm : missingColumns (stripId form) ≠ []) :
    App.formDispatch m form =
      HandlerOutcome.structural
        ("Missing required columns: " ++ String.intercalate ", " (missingColumns (stripId form))) := by
  unfold App.formDispatch
  rw [if_neg hm]

/-- Unfolding `App.formDispatch` when the model invocation raises a
`ValueError`. -/
theorem appDispatch_valueError (m : Model) (form : List (String × String)) (msg tb : String)
    (hm : missingColumns (stripId form) = [])
    (hr : m.run (selectColumns (stripId form)) = Except.error (PyExc.valueError msg tb)) :
    App.formDispatch m form = HandlerOutcome.structural msg := by
  unfold App.formDispatch
  rw [hm, hr]
  rfl

/-- Unfolding `App.formDispatch` when the model invocation raises an exception
that is not a `ValueError`. -/
theorem appDispatch_otherExc (m : Model) (form : List (String × String)) (msg tb : String)
    (hm : missingColumns (stripId form) = [])
    (hr : m.run (selectColumns (stripId form)) = Except.error (PyExc.otherExc msg tb)) :
    App.formDispatch m form = HandlerOutcome.unclassified msg tb := by
  unfold App.formDispatch
  rw [hm, hr]
  rfl

/-- The two form handlers share the same dispatch computation: their source is
line for line identical. -/
theorem correctedDispatch_eq (m : Model) (form : List (String × String)) :
    AppCorrected.formDispatch m form = App.formDispatch m form := rfl

/-- Unfolding `AppCorrected.apiDispatch` on a structurally valid request whose
model invocation succeeds. -/
theorem apiDispatch_ok (m : Model) (json : List (String × String)) (pred : ℕ) (p : ℚ)
    (hm : missingColumns (stripId json) = [])
    (hr : m.run (selectColumns (stripId json)) = Except.ok (pred, p)) :
    AppCorrected.apiDispatch m json =
      HandlerOutcome.success (if pred = 1 then "Yes" else "No") p
        (json.lookup "customerID") (stripId json) := by
  unfold AppCorrected.apiDispatch
  rw [hm, hr]
  rfl

/-- Unfolding `AppCorrected.apiDispatch` when expected columns are missing. -/
theorem apiDispatch_missing (m : Model) (json : List (String × String))
    (hm : missingColumns (stripId json) ≠ []) :
    AppCorrected.apiDispatch m json =
      HandlerOutcome.structural
        ("Missing columns: " ++ String.intercalate ", " (missingColumns (stripId json))) := by
  unfold AppCorrected.apiDispatch
  rw [if_neg hm]

/-- Unfolding `AppCorrected.apiDispatch` when the model invocation raises any
exception. -/
theorem apiDispatch_exc (m : Model) (json : List (String × String)) (e : PyExc)
    (hm : missingColumns (stripId json) = [])
    (hr : m.run (selectColumns (stripId json)) = Except.error e) :
    AppCorrected.apiDispatch m json = HandlerOutcome.unclassified e.msg e.tb := by
  unfold AppCorrected.apiDispatch
  rw [hm, hr]
  rfl

/-- A column is listed as missing exactly when it is an expected column with no
entry in the submitted record. -/
theorem missingColumns_spec (d : List (String × String)) (c : String) :
    c ∈ missingColumns d ↔ c ∈ EXPECTED_COLUMNS ∧ d.lookup c = none := by
  unfold missingColumns
  rw [List.mem_filter, Option.isNone_iff_eq_none]

/-- C1: a record lacking at least one of the 19 expected attribute names is
rejected by both the form handler of `src/app.py` and the JSON handler of
`src/app_corrected.py` with a structural validation error whose message lists
exactly the missing attribute names; `success` is `false`, and the loaded
artifact is never invoked (the response does not depend on the model). -/
theorem c1_missing_columns_reject (m m' : Model) (form : List (String × String))
    (hm : missingColumns (stripId form) ≠ []) :
    (App.predict m form).1 =
      ⟨none, none, none, none, none, none,
       some ("Input Error: Missing required columns: " ++
         String.intercalate ", " (missingColumns (stripId form))), [], false⟩ ∧
    (App.predict m form).1.success = false ∧
    App.predict m form = App.predict m' form ∧
    AppCorrected.api_predict m form =
      ((AppCorrected.ApiResponse.err
          ("Missing columns: " ++ String.intercalate ", " (missingColumns (stripId form))),
        400), []) ∧
    (AppCorrected.api_predict m form).1.1.success = false ∧
    AppCorrected.api_predict m form = AppCorrected.api_predict m' form ∧
    (∀ c, c ∈ missingColumns (stripId form) ↔
      c ∈ EXPECTED_COLUMNS ∧ (stripId form).lookup c = none) := by
  have h1 : App.predict m form = App.predict m' form := by
    unfold App.predict
    rw [appDispatch_missing m form hm, appDispatch_missing m' form hm]
  have h2 : AppCorrected.api_predict m form = AppCorrected.api_predict m' form := by
    unfold AppCorrected.api_predict
    rw [apiDispatch_missing m form hm, apiDispatch_missing m' form hm]
  refine ⟨?_, ?_, h1, ?_, ?_, h2, fun c => missingColumns_spec _ c⟩
  · unfold App.predict
    rw [appDispatch_missing m form hm]
    rfl
  · unfold App.predict
    rw [appDispatch_missing m form hm]
    rfl
  · unfold AppCorrected.api_predict
    rw [apiDispatch_missing m form hm]
    rfl
  · unfold AppCorrected.api_predict
    rw [apiDispatch_missing m form hm]
    rfl

/-- Witness for C1 at a concrete incomplete submission. -/
theorem c1_witness :
    (App.predict halfModel partialForm).1.success = false ∧
    App.predict halfModel partialForm = App.predict lowModel partialForm := by
  have h := c1_missing_columns_reject halfModel lowModel partialForm (by decide)
  exact ⟨h.2.1, h.2.2.1⟩

/-- The `"low"` tier is assigned exactly below 30 percent. -/
theorem riskOf_low (x : ℚ) : (riskOf x).1 = "low" ↔ x < 30 := by
  unfold riskOf
  split_ifs with h1 h2 h3
  · exact iff_of_true rfl h1
  · exact iff_of_false (by decide) h1
  · exact iff_of_false (by decide) h1
  · exact iff_of_false (by decide) h1

/-- The `"medium"` tier is assigned exactly on `[30, 50)` percent. -/
theorem riskOf_medium (x : ℚ) : (riskOf x).1 = "medium" ↔ 30 ≤ x ∧ x < 50 := by
  unfold riskOf
  split_ifs with h1 h2 h3
  · exact iff_of_false (by decide) (fun h => not_le.mpr h1 h.1)
  · exact iff_of_true rfl ⟨not_lt.mp h1, h2⟩
  · exact iff_of_false (by decide) (fun h => h2 h.2)
  · exact iff_of_false (by decide) (fun h => h2 h.2)

/-- The `"high"` tier is assigned exactly on `[50, 70)` percent. -/
theorem riskOf_high (x : ℚ) : (riskOf x).1 = "high" ↔ 50 ≤ x ∧ x < 70 := by
  unfold riskOf
  split_ifs with h1 h2 h3
  · exact iff_of_false (by decide) (fun h => not_le.mpr (h1.trans (by norm_num)) h.1)
  · exact iff_of_false (by decide) (fun h => not_le.mpr h2 h.1)
  · exact iff_of_true rfl ⟨not_lt.mp h2, h3⟩
  · exact iff_of_false (by decide) (fun h => h3 h.2)

/-- The `"very-high"` tier is assigned exactly at and above 70 percent. -/
theorem riskOf_veryHigh (x : ℚ) : (riskOf x).1 = "very-high" ↔ 70 ≤ x := by
  unfold riskOf
  split_ifs with h1 h2 h3
  · exact iff_of_false (by decide) (not_le.mpr (h1.trans (by norm_num)))
  · exact iff_of_false (by decide) (not_le.mpr (h2.trans (by norm_num)))
  · exact iff_of_false (by decide) (not_le.mpr h3)
  · exact iff_of_true rfl (not_lt.mp h3)

/-- C2: on every successfully handled request the form-rendering handler of
`src/app.py` displays the risk tier `riskOf` of the percentage `p * 100`, and
that tier is `"low"` iff `p*100 < 30`, `"medium"` iff `30 ≤ p*100 < 50`,
`"high"` iff `50 ≤ p*100 < 70`, `"very-high"` iff `p*100 ≥ 70`; at the
boundary percentages, 29.99 is low, 30 medium, 49.99 medium, 50 high, 69.99
high and 70 very-high. -/
theorem c2_risk_tiers (m : Model) (form : List (String × String)) (pred : ℕ) (p : ℚ)
    (hm : missingColumns (stripId form) = [])
    (hr : m.run (selectColumns (stripId form)) = Except.ok (pred, p)) :
    (App.predict m form).1.riskLevel = some (riskOf (p * 100)).1 ∧
    ((riskOf (p * 100)).1 = "low" ↔ p * 100 < 30) ∧
    ((riskOf (p * 100)).1 = "medium" ↔ 30 ≤ p * 100 ∧ p * 100 < 50) ∧
    ((riskOf (p * 100)).1 = "high" ↔ 50 ≤ p * 100 ∧ p * 100 < 70) ∧
    ((riskOf (p * 100)).1 = "very-high" ↔ 70 ≤ p * 100) ∧
    (riskOf 29.99).1 = "low" ∧ (riskOf 30).1 = "medium" ∧
    (riskOf 49.99).1 = "medium" ∧ (riskOf 50).1 = "high" ∧
    (riskOf 69.99).1 = "high" ∧ (riskOf 70).1 = "very-high" := by
  refine ⟨?_, riskOf_low _, riskOf_medium _, riskOf_high _, riskOf_veryHigh _,
    (riskOf_low _).mpr (by norm_num), (riskOf_medium _).mpr (by norm_num),
    (riskOf_medium _).mpr (by norm_num), (riskOf_high _).mpr (by norm_num),
    (riskOf_high _).mpr (by norm_num), (riskOf_veryHigh _).mpr (by norm_num)⟩
  unfold App.predict
  rw [appDispatch_ok m form pred p hm hr]
  rfl

/-- Witness for C2 at a concrete complete submission and artifact. -/
theorem c2_witness :
    (App.predict halfModel fullForm).1.riskLevel = some (riskOf ((1:ℚ)/2 * 100)).1 ∧
    (riskOf 30).1 = "medium" := by
  have h := c2_risk_tiers halfModel fullForm 1 (1/2) (by decide) rfl
  exact ⟨h.1, h.2.2.2.2.2.2.1⟩

/-- C3: on every successfully handled request, of either service variant, the
returned churn label is `"Yes"` exactly when the returned churn-class
probability is at least `0.5` and `"No"` exactly when it is below `0.5` — in
particular label and probability never disagree, including at probability
exactly `0.5`. -/
theorem c3_label_matches_probability (m : Model) (form : List (String × String))
    (pred : ℕ) (p : ℚ)
    (hm : missingColumns (stripId form) = [])
    (hr : m.run (selectColumns (stripId form)) = Except.ok (pred, p)) :
    ((App.predict m form).1.churn = some "Yes" ↔ 1/2 ≤ p) ∧
    ((App.predict m form).1.churn = some "No" ↔ p < 1/2) ∧
    ((AppCorrected.api_predict m form).1.1.labelOf = some "Yes" ↔ 1/2 ≤ p) ∧
    ((AppCorrected.api_predict m form).1.1.labelOf = some "No" ↔ p < 1/2) ∧
    ¬((App.predict m form).1.churn = some "Yes" ∧ p < 1/2) ∧
    ¬((App.predict m form).1.churn = some "No" ∧ 1/2 ≤ p) := by
  have ht := m.run_threshold _ _ _ hr
  have hform : (App.predict m form).1.churn = some (if pred = 1 then "Yes" else "No") := by
    unfold App.predict
    rw [appDispatch_ok m form pred p hm hr]
    rfl
  have happi : (AppCorrected.api_predict m form).1.1.labelOf =
      some (if pred = 1 then "Yes" else "No") := by
    unfold AppCorrected.api_predict
    rw [apiDispatch_ok m form pred p hm hr]
    rfl
  have hyes : ∀ s : Option String, s = some (if pred = 1 then "Yes" else "No") →
      (s = some "Yes" ↔ 1/2 ≤ p) := by
    intro s hs
    subst hs
    by_cases hp : pred = 1
    · rw [if_pos hp]
      exact iff_of_true rfl (ht.mp hp)
    · rw [if_neg hp]
      exact iff_of_false (by simp) (fun hle => hp (ht.mpr hle))
  have hno : ∀ s : Option String, s = some (if pred = 1 then "Yes" else "No") →
      (s = some "No" ↔ p < 1/2) := by
    intro s hs
    subst hs
    by_cases hp : pred = 1
    · rw [if_pos hp]
      exact iff_of_false (by simp) (not_lt.mpr (ht.mp hp))
    · rw [if_neg hp]
      exact iff_of_true rfl (not_le.mp (fun hle => hp (ht.mpr hle)))
  refine ⟨hyes _ hform, hno _ hform, hyes _ happi, hno _ happi, ?_, ?_⟩
  · intro ⟨ha, hb⟩
    exact not_lt.mpr ((hyes _ hform).mp ha) hb
  · intro ⟨ha, hb⟩
    exact not_le.mpr ((hno _ hform).mp ha) hb

/-- Witness for C3 at the boundary probability `1/2`. -/
theorem c3_witness :
    (App.predict halfModel fullForm).1.churn = some "Yes" ∧
    (AppCorrected.api_predict halfModel fullForm).1.1.labelOf = some "Yes" := by
  have h := c3_label_matches_probability halfModel fullForm 1 (1/2) (by decide) rfl
  exact ⟨h.1.mpr (by norm_num), h.2.2.1.mpr (by norm_num)⟩

/-- C4: a categorical value that did not occur in the training split for its
attribute is encoded by the fitted categorical sub-pipeline of `build_pipeline`
(most-frequent imputer, then `OneHotEncoder(handle_unknown="ignore",
drop="first")`) as the all-zero vector over that attribute's dummy columns —
no error is raised, the transform being total — and a non-raising invocation of
the artifact still yields a label in `{Yes, No}` and a churn-class probability
in `[0,1]`. -/
theorem c4_unseen_category (fill : String) (cats : List String) (v : String)
    (hv : v ∉ cats) (m : Model) (df : List (String × Option String)) (pred : ℕ) (p : ℚ)
    (hr : m.run df = Except.ok (pred, p)) :
    Main.FittedCatColumn.transform ⟨fill, cats⟩ (some v) = List.replicate (cats.length - 1) 0 ∧
    ((if pred = 1 then "Yes" else "No") = "Yes" ∨ (if pred = 1 then "Yes" else "No") = "No") ∧
    0 ≤ p ∧ p ≤ 1 := by
  refine ⟨?_, ?_, (m.run_unit _ _ _ hr).1, (m.run_unit _ _ _ hr).2⟩
  · show Main.encodeValue cats v = _
    rw [List.eq_replicate_iff]
    constructor
    · simp [Main.encodeValue]
    · intro b hb
      simp only [Main.encodeValue, List.mem_map] at hb
      obtain ⟨c, hc, hcb⟩ := hb
      have hne : v ≠ c := fun h => hv (h ▸ List.drop_subset 1 cats hc)
      rw [← hcb, if_neg hne]
  · by_cases hp : pred = 1
    · exact Or.inl (by rw [if_pos hp])
    · exact Or.inr (by rw [if_neg hp])

/-- Witness for C4: the value `"Cable"` is unseen for a vocabulary learned as
`["DSL", "Fiber optic", "No"]` and encodes to the zero vector of length 2. -/
theorem c4_witness :
    Main.FittedCatColumn.transform ⟨"DSL", ["DSL", "Fiber optic", "No"]⟩ (some "Cable") =
      List.replicate 2 0 ∧ (0:ℚ) ≤ 1/2 := by
  have h := c4_unseen_category "DSL" ["DSL", "Fiber optic", "No"] "Cable" (by decide)
    halfModel (selectColumns (stripId fullForm)) 1 (1/2) rfl
  exact ⟨h.1, h.2.2.1⟩

/-- C5: two valid submissions that agree as attribute-to-value mappings on the
expected attribute names — whatever their pair order, and whatever extra
attributes they carry — are selected and reordered to the same single-row
frame, whose columns are exactly `EXPECTED_COLUMNS` in that fixed order, and
therefore receive the same label, probability string, raw percentage and risk
tier; extra attributes are dropped by the selection step `selectColumns`
before the pipeline is invoked. -/
theorem c5_order_invariance (m : Model) (form1 form2 : List (String × String))
    (hagree : ∀ c ∈ EXPECTED_COLUMNS, (stripId form1).lookup c = (stripId form2).lookup c)
    (hm : missingColumns (stripId form1) = []) :
    missingColumns (stripId form2) = [] ∧
    selectColumns (stripId form1) = selectColumns (stripId form2) ∧
    (selectColumns (stripId form1)).map Prod.fst = EXPECTED_COLUMNS ∧
    (App.predict m form1).1.churn = (App.predict m form2).1.churn ∧
    (App.predict m form1).1.probability = (App.predict m form2).1.probability ∧
    (App.predict m form1).1.probPct = (App.predict m form2).1.probPct ∧
    (App.predict m form1).1.riskLevel = (App.predict m form2).1.riskLevel ∧
    (App.predict m form1).1.success = (App.predict m form2).1.success := by
  have hsel : selectColumns (stripId form1) = selectColumns (stripId form2) :=
    List.map_congr_left (fun c hc => by rw [hagree c hc])
  have hm2 : missingColumns (stripId form2) = [] := by
    have heq : missingColumns (stripId form1) = missingColumns (stripId form2) :=
      List.filter_congr (fun c hc => by rw [hagree c hc])
    rw [← heq]
    exact hm
  have hkeys : (selectColumns (stripId form1)).map Prod.fst = EXPECTED_COLUMNS := by
    unfold selectColumns
    rw [List.map_map]
    exact (List.map_congr_left (fun c _ => rfl)).trans (List.map_id _)
  have hfields :
      (App.predict m form1).1.churn = (App.predict m form2).1.churn ∧
      (App.predict m form1).1.probability = (App.predict m form2).1.probability ∧
      (App.predict m form1).1.probPct = (App.predict m form2).1.probPct ∧
      (App.predict m form1).1.riskLevel = (App.predict m form2).1.riskLevel ∧
      (App.predict m form1).1.success = (App.predict m form2).1.success := by
    cases hrun : m.run (selectColumns (stripId form1)) with
    | ok v =>
      obtain ⟨pred, p⟩ := v
      have e1 := appDispatch_ok m form1 pred p hm hrun
      have e2 := appDispatch_ok m form2 pred p hm2 (by rw [← hsel]; exact hrun)
      unfold App.predict
      rw [e1, e2]
      exact ⟨rfl, rfl, rfl, rfl, rfl⟩
    | error e =>
      have hrun2 : m.run (selectColumns (stripId form2)) = Except.error e := by
        rw [← hsel]
        exact hrun
      cases e with
      | valueError msg tb =>
        have e1 := appDispatch_valueError m form1 msg tb hm hrun
        have e2 := appDispatch_valueError m form2 msg tb hm2 hrun2
        unfold App.predict
        rw [e1, e2]
        exact ⟨rfl, rfl, rfl, rfl, rfl⟩
      | otherExc msg tb =>
        have e1 := appDispatch_otherExc m form1 msg tb hm hrun
        have e2 := appDispatch_otherExc m form2 msg tb hm2 hrun2
        unfold App.predict
        rw [e1, e2]
        exact ⟨rfl, rfl, rfl, rfl, rfl⟩
  exact ⟨hm2, hsel, hkeys, hfields.1, hfields.2.1, hfields.2.2.1, hfields.2.2.2.1,
    hfields.2.2.2.2⟩

/-- Witness for C5: `permForm` submits the same mapping as `fullForm` in
reversed order with an extra attribute. -/
theorem c5_witness :
    (App.predict halfModel fullForm).1.churn = (App.predict halfModel permForm).1.churn ∧
    missingColumns (stripId permForm) = [] := by
  have h := c5_order_invariance halfModel fullForm permForm (by decide) (by decide)
  exact ⟨h.2.2.2.1, h.1⟩

/-- C10: the training label mapping of `src/main.py` line 48 sends exactly the
string `"Yes"` to `1` and exactly `"No"` to `0`, and silently sends every
other cell of the `Churn` column — any other capitalization or whitespace
variant, and the missing cell — to a missing value, raising no error and
excluding no row (the mapped column has the same length). -/
theorem c10_label_mapping (v : Option String)
    (hv : v ≠ some "Yes") (hv2 : v ≠ some "No") :
    Main.churnLabelMap (some "Yes") = some 1 ∧
    Main.churnLabelMap (some "No") = some 0 ∧
    Main.churnLabelMap v = none ∧
    ∀ col : List (Option String), (Main.churnColumnMap col).length = col.length := by
  refine ⟨rfl, rfl, ?_, fun col => List.length_map _ _⟩
  match v with
  | none => rfl
  | some s =>
    have h1 : (s == "Yes") = false :=
      beq_eq_false_iff_ne.mpr (fun h => hv (by rw [h]))
    have h2 : (s == "No") = false :=
      beq_eq_false_iff_ne.mpr (fun h => hv2 (by rw [h]))
    show ([("Yes", 1), ("No", 0)] : List (String × ℤ)).lookup s = none
    simp [List.lookup, h1, h2]

/-- Witness for C10: a lowercase `"yes"` label is mapped to a missing value. -/
theorem c10_witness :
    Main.churnLabelMap (some "yes") = none ∧ Main.churnLabelMap (some "Yes") = some 1 := by
  have h := c10_label_mapping (some "yes") (by decide) (by decide)
  exact ⟨h.2.2.1, h.1⟩

/-- Counterexample to C6 as stated: on a structurally complete submission, a
`ValueError` raised by the artifact invocation itself — here the conversion
error sklearn raises on a non-numeric string in a numeric column, not a
missing-attribute error — is caught by the form handler's `except ValueError`
clause and classified as a structural input error, not as the unclassified
kind. -/
theorem c6_counterexample :
    (App.formDispatch convErrModel fullForm).kind = ErrorKind.structuralKind ∧
    (App.predict convErrModel fullForm).1.error =
      some "Input Error: could not convert string to float" ∧
    (App.predict convErrModel fullForm).1.success = false ∧
    (App.predict convErrModel fullForm).2 = [] := by
  exact ⟨rfl, rfl, rfl, rfl⟩

/-- C6 (amended): in the form handlers, a non-`ValueError` exception during
invocation is surfaced with only the short message (`success=false`) while the
traceback is recorded in the server-side log only, and is classified as the
unclassified kind; an invocation `ValueError`, however, is routed to the same
structural input-error branch as a missing-column failure (the handler
branches on the exception class, not on its origin).  The JSON endpoint
classifies every invocation exception as unclassified, with status 500, the
short message as the caller-visible error, and the traceback in the log
only. -/
theorem c6_exception_handling (m : Model) (form : List (String × String))
    (msg tb : String) (e : PyExc)
    (hm : missingColumns (stripId form) = []) :
    (m.run (selectColumns (stripId form)) = Except.error (PyExc.otherExc msg tb) →
      App.predict m form =
        (⟨none, none, none, none, none, none, some ("Error: " ++ msg), [], false⟩,
         ["Prediction failed: " ++ tb]) ∧
      (App.formDispatch m form).kind = ErrorKind.unclassifiedKind) ∧
    (m.run (selectColumns (stripId form)) = Except.error (PyExc.valueError msg tb) →
      App.predict m form =
        (⟨none, none, none, none, none, none, some ("Input Error: " ++ msg), [], false⟩,
         []) ∧
      (App.formDispatch m form).kind = ErrorKind.structuralKind) ∧
    (m.run (selectColumns (stripId form)) = Except.error e →
      AppCorrected.api_predict m form =
        ((AppCorrected.ApiResponse.err e.msg, 500), ["API prediction failed: " ++ e.tb]) ∧
      (AppCorrected.apiDispatch m form).kind = ErrorKind.unclassifiedKind) := by
  refine ⟨fun hr => ?_, fun hr => ?_, fun hr => ?_⟩
  · constructor
    · unfold App.predict
      rw [appDispatch_otherExc m form msg tb hm hr]
      rfl
    · rw [appDispatch_otherExc m form msg tb hm hr]
      rfl
  · constructor
    · unfold App.predict
      rw [appDispatch_valueError m form msg tb hm hr]
      rfl
    · rw [appDispatch_valueError m form msg tb hm hr]
      rfl
  · constructor
    · unfold AppCorrected.api_predict
      rw [apiDispatch_exc m form e hm hr]
      rfl
    · rw [apiDispatch_exc m form e hm hr]
      rfl

/-- Witness for C6 (amended) at a concrete crashing artifact. -/
theorem c6_witness :
    (App.formDispatch crashModel fullForm).kind = ErrorKind.unclassifiedKind ∧
    (AppCorrected.apiDispatch crashModel fullForm).kind = ErrorKind.unclassifiedKind := by
  have h := c6_exception_handling crashModel fullForm "unexpected internal error"
    "Traceback (most recent call last): ..."
    (PyExc.otherExc "unexpected internal error" "Traceback (most recent call last): ...")
    (by decide)
  exact ⟨(h.1 rfl).2, (h.2.2 rfl).2⟩

/-- The confidence percentage string always carries exactly two digits between
the decimal point and the percent sign. -/
theorem pctString_decimals (p : ℚ) :
    ∃ ip fp, pctString p = ip ++ "." ++ fp ++ "%" ∧ fp.length = 2 := by
  exact ⟨toString ((roundHalfEven (p * 100 * 100)).toNat / 100),
    String.mk [Nat.digitChar ((roundHalfEven (p * 100 * 100)).toNat % 100 / 10),
      Nat.digitChar ((roundHalfEven (p * 100 * 100)).toNat % 10)], rfl, rfl⟩

/-- C7: on a valid request the JSON endpoint returns exactly the success
object (success flag `true`, echoed `customerID`, label in `{Yes, No}`,
churn-class probability in `[0,1]`, confidence string with exactly two decimal
places) with status 200 and no server log entry; on a missing-column failure
it returns the error object with `success=false` and status 400; on an
invocation exception it returns the error object with `success=false` and
status 500 — both non-2xx. -/
theorem c7_api_contract (m : Model) (json : List (String × String))
    (pred : ℕ) (p : ℚ) (e : PyExc) :
    (missingColumns (stripId json) = [] →
      m.run (selectColumns (stripId json)) = Except.ok (pred, p) →
      AppCorrected.api_predict m json =
        ((AppCorrected.ApiResponse.ok (json.lookup "customerID")
            (if pred = 1 then "Yes" else "No") p (pctString p), 200), []) ∧
      (AppCorrected.api_predict m json).1.1.success = true ∧
      ((if pred = 1 then "Yes" else "No") = "Yes" ∨
        (if pred = 1 then "Yes" else "No") = "No") ∧
      0 ≤ p ∧ p ≤ 1 ∧
      (∃ ip fp, pctString p = ip ++ "." ++ fp ++ "%" ∧ fp.length = 2)) ∧
    (missingColumns (stripId json) ≠ [] →
      AppCorrected.api_predict m json =
        ((AppCorrected.ApiResponse.err
            ("Missing columns: " ++ String.intercalate ", " (missingColumns (stripId json))),
          400), []) ∧
      (AppCorrected.api_predict m json).1.1.success = false ∧
      ¬(200 ≤ (AppCorrected.api_predict m json).1.2 ∧
        (AppCorrected.api_predict m json).1.2 < 300)) ∧
    (missingColumns (stripId json) = [] →
      m.run (selectColumns (stripId json)) = Except.error e →
      AppCorrected.api_predict m json =
        ((AppCorrected.ApiResponse.err e.msg, 500), ["API prediction failed: " ++ e.tb]) ∧
      (AppCorrected.api_predict m json).1.1.success = false ∧
      ¬(200 ≤ (AppCorrected.api_predict m json).1.2 ∧
        (AppCorrected.api_predict m json).1.2 < 300)) := by
  refine ⟨fun hm hr => ?_, fun hm => ?_, fun hm hr => ?_⟩
  · have hok : AppCorrected.api_predict m json =
        ((AppCorrected.ApiResponse.ok (json.lookup "customerID")
            (if pred = 1 then "Yes" else "No") p (pctString p), 200), []) := by
      unfold AppCorrected.api_predict
      rw [apiDispatch_ok m json pred p hm hr]
      rfl
    refine ⟨hok, by rw [hok]; rfl, ?_, (m.run_unit _ _ _ hr).1, (m.run_unit _ _ _ hr).2,
      pctString_decimals p⟩
    by_cases hp : pred = 1
    · exact Or.inl (by rw [if_pos hp])
    · exact Or.inr (by rw [if_neg hp])
  · have herr : AppCorrected.api_predict m json =
        ((AppCorrected.ApiResponse.err
            ("Missing columns: " ++ String.intercalate ", " (missingColumns (stripId json))),
          400), []) := by
      unfold AppCorrected.api_predict
      rw [apiDispatch_missing m json hm]
      rfl
    refine ⟨herr, by rw [herr]; rfl, by rw [herr]; norm_num⟩
  · have herr : AppCorrected.api_predict m json =
        ((AppCorrected.ApiResponse.err e.msg, 500), ["API prediction failed: " ++ e.tb]) := by
      unfold AppCorrected.api_predict
      rw [apiDispatch_exc m json e hm hr]
      rfl
    refine ⟨herr, by rw [herr]; rfl, by rw [herr]; norm_num⟩

/-- Witness for C7 at a concrete valid request and artifact. -/
theorem c7_witness :
    AppCorrected.api_predict halfModel fullForm =
      ((AppCorrected.ApiResponse.ok (fullForm.lookup "customerID") "Yes" (1/2)
          (pctString (1/2)), 200), []) ∧
    (AppCorrected.api_predict halfModel fullForm).1.1.success = true := by
  have h := (c7_api_contract halfModel fullForm 1 (1/2)
    (PyExc.otherExc "x" "y")).1 (by decide) rfl
  exact ⟨h.1, h.2.1⟩

/-- Counterexample to C8 as stated: the composite returned by `build_pipeline`
at the attribute lists of the training run contains no classifier at all; the
class-balanced logistic regression is attached outside the builder, by the
separate `final_model` composition. -/
theorem c8_counterexample :
    (Main.build_pipeline Main.num_attribs Main.cat_attribs).hasClf = false := rfl

/-- C8 (amended): the pipeline builder is a pure function of the numeric and
categorical attribute-name lists, returning the unfitted preprocessing
`ColumnTransformer` only — median imputation and standard scaling for the
numeric attributes, most-frequent imputation and first-category-dropped,
unknown-ignoring one-hot encoding for the categorical attributes; the
class-balanced linear classifier is not part of the builder's return value but
is composed with it in the separate `final_model` pipeline. -/
theorem c8_builder_returns_preprocessor (num cat : List String) :
    Main.build_pipeline num cat =
      ⟨[("num",
         ⟨[("imputer", Main.BaseEstimator.simpleImputer "median"),
           ("scaler", Main.BaseEstimator.standardScaler)]⟩, num),
        ("cat",
         ⟨[("imputer", Main.BaseEstimator.simpleImputer "most_frequent"),
           ("onehot", Main.BaseEstimator.oneHotEncoder "ignore" "first")]⟩, cat)]⟩ ∧
    (Main.build_pipeline num cat).hasClf = false ∧
    Main.final_model num cat =
      ⟨[("preprocessing", Main.ModelStage.preprocessorStage (Main.build_pipeline num cat)),
        ("classifier", Main.ModelStage.classifierStage
          (Main.BaseEstimator.logisticRegression 1000 "balanced"))]⟩ ∧
    (Main.final_model num cat).hasClf = true := ⟨rfl, rfl, rfl, rfl⟩

/-- C9: the two form handlers run the identical dispatch computation, so on
every submission they agree on the churn label, the probability string, the
echoed customer id, the success flag, the server log, and the error kind; on
the structural branch the two error messages are identical, and on the
unclassified branch they carry the same short message under different
prefixes. -/
theorem c9_variants_agree (m : Model) (form : List (String × String)) :
    AppCorrected.formDispatch m form = App.formDispatch m form ∧
    (App.predict m form).1.churn = (AppCorrected.predict m form).1.churn ∧
    (App.predict m form).1.probability = (AppCorrected.predict m form).1.probability ∧
    (App.predict m form).1.customerId = (AppCorrected.predict m form).1.customerId ∧
    (App.predict m form).1.success = (AppCorrected.predict m form).1.success ∧
    (App.predict m form).2 = (AppCorrected.predict m form).2 ∧
    (App.formDispatch m form).kind = (AppCorrected.formDispatch m form).kind ∧
    (∀ msg, App.formDispatch m form = HandlerOutcome.structural msg →
      (App.predict m form).1.error = some ("Input Error: " ++ msg) ∧
      (AppCorrected.predict m form).1.error = some ("Input Error: " ++ msg)) ∧
    (∀ msg tb, App.formDispatch m form = HandlerOutcome.unclassified msg tb →
      (App.predict m form).1.error = some ("Error: " ++ msg) ∧
      (AppCorrected.predict m form).1.error = some ("Prediction Error: " ++ msg)) := by
  have hd := correctedDispatch_eq m form
  refine ⟨hd, ?_⟩
  unfold App.predict AppCorrected.predict
  rw [hd]
  cases h : App.formDispatch m form with
  | success label p cid data =>
      exact ⟨rfl, rfl, rfl, rfl, rfl, rfl,
        fun msg hmsg => HandlerOutcome.noConfusion hmsg,
        fun msg tb hmsg => HandlerOutcome.noConfusion hmsg⟩
  | structural msg0 =>
      refine ⟨rfl, rfl, rfl, rfl, rfl, rfl, fun msg hmsg => ?_,
        fun msg tb hmsg => HandlerOutcome.noConfusion hmsg⟩
      injection hmsg with h'
      subst h'
      exact ⟨rfl, rfl⟩
  | unclassified msg0 tb0 =>
      refine ⟨rfl, rfl, rfl, rfl, rfl, rfl,
        fun msg hmsg => HandlerOutcome.noConfusion hmsg, fun msg tb hmsg => ?_⟩
      injection hmsg with h1 h2
      subst h1
      exact ⟨rfl, rfl⟩

/-- Witness for C9 at a concrete submission and artifact. -/
theorem c9_witness :
    (App.predict halfModel fullForm).1.churn =
      (AppCorrected.predict halfModel fullForm).1.churn ∧
    (App.predict crashModel fullForm).2 = (AppCorrected.predict crashModel fullForm).2 := by
  exact ⟨(c9_variants_agree halfModel fullForm).2.1,
    (c9_variants_agree crashModel fullForm).2.2.2.2.2.1⟩

end Churn
